import Mathlib

/-!
# Recognition service: enrollment / search orchestration

A shallow embedding of `main.go` and `utilities.go` of the recognition service:
the correlation-key codec (`strings.ToLower`, `strings.ReplaceAll`), the address
validator (`emailRegexp`), the provider error normaliser
(`awsRekognitionErrorHandler`), the record-store client and the handlers
`CreateEmployee`, `SearchEmployeeByFace` and `SignInEmployee`, with every
outbound call made explicit as an oracle of a `World` and logged in a trace.

Go strings are modelled by Lean `String`, i.e. sequences of Unicode code points
(the valid UTF-8 strings that a protobuf string field can carry).
-/

namespace Recognition

/-! ## Go standard library: `strings.ToLower`, `strings.ReplaceAll` -/

/-- The rune mapping `unicode.ToLower`. Its ASCII branch is spelled out in the Go
library (`if r <= MaxASCII { if 'A' <= r && r <= 'Z' { r += 'a' - 'A' }; return r }`);
above ASCII it consults the Unicode case tables, which are taken as the
parameter `caseTable`. -/
def unicodeToLower (caseTable : Char → Char) (r : Char) : Char :=
  if r.toNat ≤ 127 then
    if 65 ≤ r.toNat ∧ r.toNat ≤ 90 then Char.ofNat (r.toNat + 32) else r
  else caseTable r

/-- The function `strings.ToLower`: an ASCII-only string is returned unchanged when
it has no upper-case letter and is lowered byte by byte otherwise; any other
string is mapped rune by rune through `unicode.ToLower`. -/
def ToLower (caseTable : Char → Char) (s : String) : String :=
  if s.data.all (fun c => decide (c.toNat < 128)) then
    if s.data.any (fun c => decide (65 ≤ c.toNat ∧ c.toNat ≤ 90)) then
      ⟨s.data.map (fun c => if 65 ≤ c.toNat ∧ c.toNat ≤ 90 then Char.ofNat (c.toNat + 32) else c)⟩
    else s
  else ⟨s.data.map (unicodeToLower caseTable)⟩

/-- The replacement loop of `strings.Replace` for a non-empty `old`: scan left to
right, at each position where `old` occurs emit `new` and jump over the
occurrence (`skip` counts the characters of the occurrence still to jump over),
otherwise copy one character. -/
def replaceLoop (old new : List Char) : Nat → List Char → List Char
  | _, [] => []
  | skip + 1, _ :: cs => replaceLoop old new skip cs
  | 0, c :: cs =>
    if old.isPrefixOf (c :: cs) then new ++ replaceLoop old new (old.length - 1) cs
    else c :: replaceLoop old new 0 cs

/-- The function `strings.ReplaceAll(s, old, new)`, i.e. `strings.Replace(s, old, new, -1)`:
`s` itself when `old == new`; for an empty `old`, `new` is inserted before every
rune and at the end; otherwise all non-overlapping occurrences of `old`, found
left to right, are replaced by `new`. -/
def ReplaceAll (s old new : String) : String :=
  if old = new then s
  else if old.data = [] then ⟨new.data ++ s.data.flatMap (fun c => c :: new.data)⟩
  else ⟨replaceLoop old.data new.data 0 s.data⟩

/-- The function `strings.Contains(s, substr)`, used to state properties of addresses. -/
def Contains (s substr : String) : Bool :=
  s.data.tails.any (fun t => substr.data.isPrefixOf t)

/-! ## Correlation-key codec (`main.go`, lines 70 and 155) -/

/-- The expression `strings.ReplaceAll(strings.ToLower(emp.GetEmpEmail()), "@", "AT")`
of `CreateEmployee`. -/
def Encode (caseTable : Char → Char) (empEmail : String) : String :=
  ReplaceAll (ToLower caseTable empEmail) "@" "AT"

/-- The expression `strings.ReplaceAll(empExternalImageID, "AT", "@")` of
`SearchEmployeeByFace`. -/
def Decode (empExternalImageID : String) : String :=
  ReplaceAll empExternalImageID "AT" "@"

/-! ## Address validation (`utilities.go`, lines 25-31) -/

/-- Regular expressions, as far as `emailRegexp` uses them. `set ranges singles`
is a bracket class, `upto n r` is `r{0,n}`, `opt r` is `(?:r)?`. -/
inductive Regex where
  | fail : Regex
  | eps : Regex
  | set (ranges : List (Char × Char)) (singles : List Char) : Regex
  | seq (r s : Regex) : Regex
  | alt (r s : Regex) : Regex
  | opt (r : Regex) : Regex
  | star (r : Regex) : Regex
  | plus (r : Regex) : Regex
  | upto (n : Nat) (r : Regex) : Regex

namespace Regex

/-- Membership of a character in a bracket class. -/
def inSet (ranges : List (Char × Char)) (singles : List Char) (c : Char) : Bool :=
  ranges.any (fun p => decide (p.1.toNat ≤ c.toNat ∧ c.toNat ≤ p.2.toNat)) || singles.contains c

/-- Does the expression match the empty string. -/
def nullable : Regex → Bool
  | fail => false
  | eps => true
  | set _ _ => false
  | seq r s => nullable r && nullable s
  | alt r s => nullable r || nullable s
  | opt _ => true
  | star _ => true
  | plus r => nullable r
  | upto _ _ => true

/-- Brzozowski derivative: the expression matching `w` exactly when the original
matches `c :: w`. -/
def deriv (c : Char) : Regex → Regex
  | fail => fail
  | eps => fail
  | set ranges singles => if inSet ranges singles c then eps else fail
  | seq r s => if nullable r then alt (seq (deriv c r) s) (deriv c s) else seq (deriv c r) s
  | alt r s => alt (deriv c r) (deriv c s)
  | opt r => deriv c r
  | star r => seq (deriv c r) (star r)
  | plus r => seq (deriv c r) (star r)
  | upto 0 _ => fail
  | upto (n + 1) r => seq (deriv c r) (upto n r)

/-- Whole-string match (the pattern is anchored by `^` and `$`). -/
def matchAll (r : Regex) : List Char → Bool
  | [] => nullable r
  | c :: cs => matchAll (deriv c r) cs

/-- Characters that some bracket class of the expression admits. -/
def chars : Regex → Char → Bool
  | fail, _ => false
  | eps, _ => false
  | set ranges singles, c => inSet ranges singles c
  | seq r s, c => chars r c || chars s c
  | alt r s, c => chars r c || chars s c
  | opt r, c => chars r c
  | star r, c => chars r c
  | plus r, c => chars r c
  | upto _ r, c => chars r c

/-- A syntactic sufficient condition for matching no string at all. -/
def dead : Regex → Bool
  | fail => true
  | seq r s => dead r || dead s
  | alt r s => dead r && dead s
  | plus r => dead r
  | _ => false

end Regex

/-- The class `[a-zA-Z0-9]`. -/
def alnum : Regex := .set [('a', 'z'), ('A', 'Z'), ('0', '9')] []

/-- The class `[a-zA-Z0-9-]`. -/
def alnumHyphen : Regex := .set [('a', 'z'), ('A', 'Z'), ('0', '9')] ['-']

/-- The sub-pattern `[a-zA-Z0-9](?:[a-zA-Z0-9-]{0,61}[a-zA-Z0-9])?`. -/
def label : Regex := .seq alnum (.opt (.seq (.upto 61 alnumHyphen) alnum))

/-- The pattern of `emailRegexp` between its anchors `^` and `$`. -/
def emailRegexp : Regex :=
  .seq (.plus (.set [('a', 'z'), ('A', 'Z'), ('0', '9')] ".!#$%&'*+/=?^_`\x7b|\x7d~-".data))
    (.seq (.set [] ['@'])
      (.seq label (.star (.seq (.set [] ['.']) label))))

/-- The function `validateEmailFormat`: `emailRegexp.MatchString(email)`. -/
def validateEmailFormat (email : String) : Bool :=
  emailRegexp.matchAll email.data

/-! ## Provider error normalisation (`utilities.go`, lines 207-239) -/

/-- A value of the interface `awserr.Error`: what its methods `Code()`, `Message()`
and `Error()` return. -/
structure AwsError where
  Code : String
  Message : String
  Error : String
  deriving DecidableEq

/-- A non-nil Go `error`: either one that satisfies `awserr.Error`, or any other
error, given by the text of its `Error()` method. -/
inductive GoError where
  | aws (aerr : AwsError) : GoError
  | other (text : String) : GoError
  deriving DecidableEq

/-- Constant `rekognition.ErrCodeInvalidS3ObjectException` of the AWS SDK. -/
def ErrCodeInvalidS3ObjectException : String := "InvalidS3ObjectException"
/-- Constant `rekognition.ErrCodeInvalidParameterException` of the AWS SDK. -/
def ErrCodeInvalidParameterException : String := "InvalidParameterException"
/-- Constant `rekognition.ErrCodeImageTooLargeException` of the AWS SDK. -/
def ErrCodeImageTooLargeException : String := "ImageTooLargeException"
/-- Constant `rekognition.ErrCodeAccessDeniedException` of the AWS SDK. -/
def ErrCodeAccessDeniedException : String := "AccessDeniedException"
/-- Constant `rekognition.ErrCodeInternalServerError` of the AWS SDK. -/
def ErrCodeInternalServerError : String := "InternalServerError"
/-- Constant `rekognition.ErrCodeThrottlingException` of the AWS SDK. -/
def ErrCodeThrottlingException : String := "ThrottlingException"
/-- Constant `rekognition.ErrCodeProvisionedThroughputExceededException` of the AWS SDK. -/
def ErrCodeProvisionedThroughputExceededException : String :=
  "ProvisionedThroughputExceededException"
/-- Constant `rekognition.ErrCodeResourceNotFoundException` of the AWS SDK. -/
def ErrCodeResourceNotFoundException : String := "ResourceNotFoundException"
/-- Constant `rekognition.ErrCodeInvalidImageFormatException` of the AWS SDK. -/
def ErrCodeInvalidImageFormatException : String := "InvalidImageFormatException"

/-- The function `awsRekognitionErrorHandler`: the type assertion
`err.(awserr.Error)` followed by the `switch aerr.Code()`. -/
def awsRekognitionErrorHandler (err : GoError) : String × String :=
  match err with
  | .aws aerr =>
    if aerr.Code = ErrCodeInvalidS3ObjectException then
      (ErrCodeInvalidS3ObjectException, aerr.Error)
    else if aerr.Code = ErrCodeInvalidParameterException then
      (ErrCodeInvalidParameterException, aerr.Error)
    else if aerr.Code = ErrCodeImageTooLargeException then
      (ErrCodeImageTooLargeException, aerr.Error)
    else if aerr.Code = ErrCodeAccessDeniedException then
      (ErrCodeAccessDeniedException, aerr.Error)
    else if aerr.Code = ErrCodeInternalServerError then
      (ErrCodeInternalServerError, aerr.Error)
    else if aerr.Code = ErrCodeThrottlingException then
      (ErrCodeThrottlingException, aerr.Error)
    else if aerr.Code = ErrCodeProvisionedThroughputExceededException then
      (ErrCodeProvisionedThroughputExceededException, aerr.Error)
    else if aerr.Code = ErrCodeResourceNotFoundException then
      (ErrCodeResourceNotFoundException, aerr.Error)
    else if aerr.Code = ErrCodeInvalidImageFormatException then
      (ErrCodeInvalidImageFormatException, aerr.Error)
    else ("Unkonwn aws error code", aerr.Error)
  | .other text => ("Unkonwn error", text)

/-- The nine provider failure kinds the specification lists as recognised. -/
def recognizedKinds : List String :=
  [ErrCodeInvalidS3ObjectException, ErrCodeInvalidParameterException,
   ErrCodeImageTooLargeException, ErrCodeAccessDeniedException, ErrCodeInternalServerError,
   ErrCodeThrottlingException, ErrCodeProvisionedThroughputExceededException,
   ErrCodeResourceNotFoundException, ErrCodeInvalidImageFormatException]

/-- Reference definition of `Normalize`, after the words of the specification: a
recognised kind maps to itself, any other provider error to the generic code
`unknownProvider`, a non-provider error to the generic code `unknownError`, each
paired with the text of the error. -/
def NormalizeRef (unknownProvider unknownError : String) (err : GoError) : String × String :=
  match err with
  | .aws aerr =>
    if aerr.Code ∈ recognizedKinds then (aerr.Code, aerr.Error) else (unknownProvider, aerr.Error)
  | .other text => (unknownError, text)

/-! ## Data of the handlers -/

/-- The gRPC status codes the service returns. -/
inductive Code where
  | InvalidArgument
  | NotFound
  | AlreadyExists
  | Internal
  deriving DecidableEq

/-- The text `codes.Code.String()` prints. -/
def Code.String : Code → String
  | .InvalidArgument => "InvalidArgument"
  | .NotFound => "NotFound"
  | .AlreadyExists => "AlreadyExists"
  | .Internal => "Internal"

/-- An error built by `status.Error` / `status.Errorf`. -/
structure Status where
  code : Code
  message : String
  deriving DecidableEq

/-- The text of a status error, as `%v` prints it. -/
def Status.Error (s : Status) : String :=
  "rpc error: code = " ++ s.code.String ++ " desc = " ++ s.message

/-- The fields of the protobuf message `Employee` (of `recognitionpb` and of
`employeepb`) that the handlers read. -/
structure Employee where
  EmpID : String
  EmpCardID : String
  EmpFirst : String
  EmpLast : String
  EmpEmail : String
  EmpExternalImageID : String
  deriving DecidableEq

/-- Protobuf getter: the empty string on a nil message. -/
def GetEmpID (e : Option Employee) : String := (e.map (·.EmpID)).getD ""
/-- Protobuf getter: the empty string on a nil message. -/
def GetEmpCardID (e : Option Employee) : String := (e.map (·.EmpCardID)).getD ""
/-- Protobuf getter: the empty string on a nil message. -/
def GetEmpFirst (e : Option Employee) : String := (e.map (·.EmpFirst)).getD ""
/-- Protobuf getter: the empty string on a nil message. -/
def GetEmpLast (e : Option Employee) : String := (e.map (·.EmpLast)).getD ""
/-- Protobuf getter: the empty string on a nil message. -/
def GetEmpEmail (e : Option Employee) : String := (e.map (·.EmpEmail)).getD ""

/-- The struct `employee` of `main.go`. -/
structure employee where
  empID : String
  empCardID : String
  empFirst : String
  empLast : String
  empEmail : String
  empExternalImageID : String
  deriving DecidableEq

/-- The message `CreateEmployeeRequest`; `Employee` may be nil. -/
structure CreateEmployeeRequest where
  Employee : Option Employee
  deriving DecidableEq

/-- The message `CreateEmployeeResponse`. -/
structure CreateEmployeeResponse where
  EmpFirst : String
  EmpLast : String
  deriving DecidableEq

/-- The message `SearchEmployeeResponse`. -/
structure SearchEmployeeResponse where
  EmpID : String
  EmpCardID : String
  EmpFirst : String
  EmpLast : String
  EmpEmail : String
  deriving DecidableEq

/-- The struct `rekognition.Face`, fields read by the handlers; both are pointers.
A confidence is a `float64`, modelled by the rational number it denotes. -/
structure Face where
  Confidence : Option ℚ
  ExternalImageId : Option String
  deriving DecidableEq

/-- The struct `rekognition.FaceRecord`. -/
structure FaceRecord where
  Face : Option Face
  deriving DecidableEq

/-- The struct `rekognition.FaceMatch`. -/
structure FaceMatch where
  Face : Option Face
  deriving DecidableEq

/-- The struct `rekognition.IndexFacesOutput`: a slice of pointers. -/
structure IndexFacesOutput where
  FaceRecords : List (Option FaceRecord)
  deriving DecidableEq

/-- The struct `rekognition.SearchFacesByImageOutput`: a slice of pointers. -/
structure SearchFacesByImageOutput where
  FaceMatches : List (Option FaceMatch)
  deriving DecidableEq

/-- The struct `rekognition.IndexFacesInput` as `CreateEmployee` fills it. -/
structure IndexFacesInput where
  CollectionId : String
  ExternalImageId : String
  QualityFilter : String
  DetectionAttributes : List String
  Bucket : String
  Name : String
  deriving DecidableEq

/-- The struct `rekognition.SearchFacesByImageInput` as `SearchEmployeeByFace` fills it. -/
structure SearchFacesByImageInput where
  CollectionId : String
  FaceMatchThreshold : ℚ
  Bucket : String
  Name : String
  MaxFaces : Int
  deriving DecidableEq

/-- What one call of the record store yields: `grpc.DialContext` fails, or the
RPC fails, or the RPC replies. -/
inductive DBReply (α : Type) where
  | dialFailed (err : String) : DBReply α
  | rpcFailed (err : String) : DBReply α
  | replied (a : α) : DBReply α
  deriving DecidableEq

/-- The outbound calls, each with what it yielded. -/
inductive Event where
  | IndexFaces (input : IndexFacesInput) (reply : Except GoError IndexFacesOutput)
  | SearchFacesByImage (input : SearchFacesByImageInput)
      (reply : Except GoError SearchFacesByImageOutput)
  | DBSearchFace (address empEmail : String) (reply : DBReply (Option Employee))
  | DBCreateEmp (address : String) (tempEmp : employee) (reply : DBReply String)
  | DBSignInEmp (address empEmail empCardID : String) (reply : DBReply Unit)

/-- Is the event a call of the matching provider. -/
def Event.isProvider : Event → Bool
  | .IndexFaces _ _ => true
  | .SearchFacesByImage _ _ => true
  | _ => false

/-- Is the event a call of the record store. -/
def Event.isRecordStore : Event → Bool
  | .DBSearchFace _ _ _ => true
  | .DBCreateEmp _ _ _ => true
  | .DBSignInEmp _ _ _ _ => true
  | _ => false

/-- The collaborators of the service: what `session.NewSession` yields (an error
text, or none), what the provider and the record store answer to each call, and
the identifier `uuid.New().String()` draws. -/
structure World where
  NewSession : Option String
  IndexFaces : IndexFacesInput → Except GoError IndexFacesOutput
  SearchFacesByImage : SearchFacesByImageInput → Except GoError SearchFacesByImageOutput
  SearchEmployeeByFace : String → String → DBReply (Option Employee)
  CreateEmployee : String → employee → DBReply String
  SignInEmployee : String → String → String → DBReply Unit
  NewUUID : String

/-- How a piece of Go code ends: it returns a value, the process is terminated by
`log.Fatalf`, or a run-time panic is raised. -/
inductive Run (α : Type) where
  | done (a : α) : Run α
  | fatal : Run α
  | panic : Run α
  deriving DecidableEq

/-- An execution: the outbound calls made, in order, and how the code ended. -/
structure Exec (α : Type) where
  trace : List Event
  out : Run α

/-- Constant `enrollConfidenceThreshold`. -/
def enrollConfidenceThreshold : ℚ := 70

/-- Constant `searchConfidenceThreshold`. -/
def searchConfidenceThreshold : ℚ := 90

/-- Constant `employeedbAddress`. -/
def employeedbAddress : String := "localhost:50052"

/-! ## Record-store client (`utilities.go`, lines 33-135) -/

/-- The function `CallEmployeeDBServiceToCreateEmp`: `createGRPCConn` ends the
process with `log.Fatalf` when dialling fails; a failed RPC becomes an `Internal`
status error; otherwise the message of the reply is returned. -/
def CallEmployeeDBServiceToCreateEmp (w : World) (tempEmp : employee) (address : String) :
    Exec (Except Status String) :=
  ⟨[.DBCreateEmp address tempEmp (w.CreateEmployee address tempEmp)],
    match w.CreateEmployee address tempEmp with
    | .dialFailed _ => .fatal
    | .rpcFailed err => .done (.error ⟨.Internal, "Error when creating employee: " ++ err⟩)
    | .replied msg => .done (.ok msg)⟩

/-- The function `CallEmployeeDBServiceToSearchFace`; the employee of the reply may
be nil. -/
def CallEmployeeDBServiceToSearchFace (w : World) (empEmail : String) (address : String) :
    Exec (Except Status (Option Employee)) :=
  ⟨[.DBSearchFace address empEmail (w.SearchEmployeeByFace address empEmail)],
    match w.SearchEmployeeByFace address empEmail with
    | .dialFailed _ => .fatal
    | .rpcFailed err => .done (.error ⟨.Internal, "Error when searching employee: " ++ err⟩)
    | .replied e => .done (.ok e)⟩

/-- The function `CallEmployeeDBServiceToSignInEmp`; `none` is the nil error. -/
def CallEmployeeDBServiceToSignInEmp (w : World) (empEmail empCardID : String)
    (address : String) : Exec (Option Status) :=
  ⟨[.DBSignInEmp address empEmail empCardID (w.SignInEmployee address empEmail empCardID)],
    match w.SignInEmployee address empEmail empCardID with
    | .dialFailed _ => .fatal
    | .rpcFailed err => .done (some ⟨.Internal, "Error when sign in employee: " ++ err⟩)
    | .replied _ => .done none⟩

/-! ## Handlers (`main.go`) -/

/-- The function `SignInEmployee`; `none` is the nil error. -/
def SignInEmployee (w : World) (empEmail empCardID : String) : Exec (Option Status) :=
  if empEmail = "" ∨ empCardID = "" then
    ⟨[], .done (some ⟨.InvalidArgument,
      "Recognition-SignIn: employee email and card ID cannot be empty"⟩)⟩
  else if validateEmailFormat empEmail = false then
    ⟨[], .done (some ⟨.InvalidArgument, "Recognition-SignIn: Invalid email format"⟩)⟩
  else
    let call := CallEmployeeDBServiceToSignInEmp w empEmail empCardID employeedbAddress
    match call.out with
    | .fatal => ⟨call.trace, .fatal⟩
    | .panic => ⟨call.trace, .panic⟩
    | .done (some err) =>
      ⟨call.trace, .done (some ⟨.Internal,
        "Recognition-SignIn: Error when connecting employee db: " ++ err.Error⟩)⟩
    | .done none => ⟨call.trace, .done none⟩

/-- The expression `*result.FaceRecords[0].Face.Confidence`; `none` stands for the
run-time panic of an index out of range or of a nil pointer dereference. -/
def topFaceConfidence (result : IndexFacesOutput) : Option ℚ :=
  match result.FaceRecords with
  | [] => none
  | none :: _ => none
  | some record :: _ =>
    match record.Face with
    | none => none
    | some face => face.Confidence

/-- The expression `*result.FaceMatches[0].Face.ExternalImageId`, evaluated once the
slice is known to be non-empty; `none` stands for the run-time panic of a nil
pointer dereference. -/
def topExternalImageId (result : SearchFacesByImageOutput) : Option String :=
  match result.FaceMatches with
  | [] => none
  | none :: _ => none
  | some candidate :: _ =>
    match candidate.Face with
    | none => none
    | some face => face.ExternalImageId

/-- The value `input` of `CreateEmployee`: the `rekognition.IndexFacesInput` built
from the external image identifier. -/
def indexFacesInput (empExternalImageID : String) : IndexFacesInput :=
  { CollectionId := "testPhotos", ExternalImageId := empExternalImageID,
    QualityFilter := "AUTO", DetectionAttributes := ["ALL"],
    Bucket := "sample-images-wcy", Name := "Tom-Hardy-base.jpg" }

/-- The value `input` of `SearchEmployeeByFace`: the
`rekognition.SearchFacesByImageInput`, a constant. -/
def searchFacesByImageInput : SearchFacesByImageInput :=
  { CollectionId := "testPhotos", FaceMatchThreshold := searchConfidenceThreshold,
    Bucket := "sample-images-wcy", Name := "Tom-Hardy1.jpg", MaxFaces := 5 }

/-- The handler `CreateEmployee`. -/
def CreateEmployee (caseTable : Char → Char) (w : World) (req : CreateEmployeeRequest) :
    Exec (Except Status CreateEmployeeResponse) :=
  match w.NewSession with
  | some err =>
    ⟨[], .done (.error ⟨.InvalidArgument,
      "Recognition-Create: Error when create session " ++ err⟩)⟩
  | none =>
    let emp := req.Employee
    if emp = none ∨ GetEmpEmail emp = "" then
      ⟨[], .done (.error ⟨.InvalidArgument, "Recognition-Create: Error when receiving data"⟩)⟩
    else if validateEmailFormat (GetEmpEmail emp) = false then
      ⟨[], .done (.error ⟨.InvalidArgument, "Recognition-Create: Invalid email format"⟩)⟩
    else
      let lookup := CallEmployeeDBServiceToSearchFace w (GetEmpEmail emp) employeedbAddress
      match lookup.out with
      | .fatal => ⟨lookup.trace, .fatal⟩
      | .panic => ⟨lookup.trace, .panic⟩
      | .done (.error err) =>
        ⟨lookup.trace, .done (.error ⟨.Internal,
          "Recognition-Create: Error when connecting employee db: " ++ err.Error⟩)⟩
      | .done (.ok existingEmployee) =>
        if GetEmpEmail existingEmployee ≠ "" then
          ⟨lookup.trace, .done (.error ⟨.AlreadyExists,
            "Recognition-Create: Employee already exists"⟩)⟩
        else
          let empExternalImageID := Encode caseTable (GetEmpEmail emp)
          let input := indexFacesInput empExternalImageID
          let trace := lookup.trace ++ [.IndexFaces input (w.IndexFaces input)]
          match w.IndexFaces input with
          | .error err =>
            ⟨trace, .done (.error ⟨.InvalidArgument,
              "Recognition-Create: " ++ (awsRekognitionErrorHandler err).1 ++ ": " ++
                (awsRekognitionErrorHandler err).2⟩)⟩
          | .ok result =>
            match topFaceConfidence result with
            | none => ⟨trace, .panic⟩
            | some confidence =>
              if confidence < enrollConfidenceThreshold then
                ⟨trace, .done (.error ⟨.InvalidArgument,
                  "Recognition-Create: No face detected"⟩)⟩
              else
                let tempEmp : employee :=
                  { empID := w.NewUUID, empCardID := GetEmpCardID emp,
                    empFirst := GetEmpFirst emp, empLast := GetEmpLast emp,
                    empEmail := GetEmpEmail emp, empExternalImageID := empExternalImageID }
                let created := CallEmployeeDBServiceToCreateEmp w tempEmp employeedbAddress
                match created.out with
                | .fatal => ⟨trace ++ created.trace, .fatal⟩
                | .panic => ⟨trace ++ created.trace, .panic⟩
                | .done _ =>
                  ⟨trace ++ created.trace,
                    .done (.ok { EmpFirst := GetEmpFirst emp, EmpLast := GetEmpLast emp })⟩

/-- The handler `SearchEmployeeByFace`; its request is not read. -/
def SearchEmployeeByFace (w : World) : Exec (Except Status SearchEmployeeResponse) :=
  match w.NewSession with
  | some err =>
    ⟨[], .done (.error ⟨.InvalidArgument,
      "Recognition-Search: Error when create session " ++ err⟩)⟩
  | none =>
    let input := searchFacesByImageInput
    let trace : List Event := [.SearchFacesByImage input (w.SearchFacesByImage input)]
    match w.SearchFacesByImage input with
    | .error err =>
      ⟨trace, .done (.error ⟨.InvalidArgument,
        "Recognition-Search: " ++ (awsRekognitionErrorHandler err).1 ++ ": " ++
          (awsRekognitionErrorHandler err).2⟩)⟩
    | .ok result =>
      if result.FaceMatches.length = 0 then
        ⟨trace, .done (.error ⟨.NotFound, "Recognition-Search: Employee doesn't exist"⟩)⟩
      else
        match topExternalImageId result with
        | none => ⟨trace, .panic⟩
        | some empExternalImageID =>
          let empEmail := Decode empExternalImageID
          let lookup := CallEmployeeDBServiceToSearchFace w empEmail employeedbAddress
          match lookup.out with
          | .fatal => ⟨trace ++ lookup.trace, .fatal⟩
          | .panic => ⟨trace ++ lookup.trace, .panic⟩
          | .done (.error err) =>
            ⟨trace ++ lookup.trace, .done (.error ⟨.Internal,
              "Recognition-SearchFace: Error when connecting employee db: " ++ err.Error⟩)⟩
          | .done (.ok emp) =>
            let signIn := SignInEmployee w (GetEmpEmail emp) (GetEmpCardID emp)
            match signIn.out with
            | .fatal => ⟨trace ++ lookup.trace ++ signIn.trace, .fatal⟩
            | .panic => ⟨trace ++ lookup.trace ++ signIn.trace, .panic⟩
            | .done _ =>
              ⟨trace ++ lookup.trace ++ signIn.trace,
                .done (.ok { EmpID := GetEmpID emp, EmpCardID := GetEmpCardID emp,
                             EmpFirst := GetEmpFirst emp, EmpLast := GetEmpLast emp,
                             EmpEmail := GetEmpEmail emp })⟩

/-! ## Concrete collaborators used to evaluate the handlers -/

/-- A record store holding nobody, a provider that indexes no face and finds no
candidate. -/
def emptyWorld : World where
  NewSession := none
  IndexFaces := fun _ => .ok ⟨[]⟩
  SearchFacesByImage := fun _ => .ok ⟨[]⟩
  SearchEmployeeByFace := fun _ _ => .replied none
  CreateEmployee := fun _ _ => .replied "created"
  SignInEmployee := fun _ _ _ => .replied ()
  NewUUID := "0b7e0e4c-5e0f-4f4e-9d56-7f1f3c2a9b10"

/-- The record of Jane Doe. -/
def jane : Employee :=
  { EmpID := "7", EmpCardID := "card-7", EmpFirst := "Jane", EmpLast := "Doe",
    EmpEmail := "jane.doe@example.com", EmpExternalImageID := "jane.doeATexample.com" }

/-- The employee message of the enrollment request of Jane Doe. -/
def janeApplicant : Employee :=
  { EmpID := "", EmpCardID := "card-7", EmpFirst := "Jane", EmpLast := "Doe",
    EmpEmail := "Jane.Doe@Example.com", EmpExternalImageID := "" }

/-- The enrollment request of Jane Doe. -/
def janeRequest : CreateEmployeeRequest := ⟨some janeApplicant⟩

/-- A provider that indexes one face with the given confidence, over an empty
record store whose create call yields `created`. -/
def enrollWorld (confidence : ℚ) (created : DBReply String) : World :=
  { emptyWorld with
    IndexFaces := fun _ => .ok ⟨[some ⟨some ⟨some confidence, none⟩⟩]⟩
    CreateEmployee := fun _ _ => created }

/-- A record store that already holds Jane Doe under every address. -/
def duplicateWorld : World :=
  { emptyWorld with SearchEmployeeByFace := fun _ _ => .replied (some jane) }

/-- A provider that recognises Jane Doe, over a record store that holds her and
whose sign-in call yields `signIn`. -/
def janeWorld (signIn : DBReply Unit) : World :=
  { emptyWorld with
    SearchFacesByImage := fun _ =>
      .ok ⟨[some ⟨some ⟨some 99, some "jane.doeATexample.com"⟩⟩]⟩
    SearchEmployeeByFace := fun _ _ => .replied (some jane)
    SignInEmployee := fun _ _ _ => signIn }

/-! ## Lemmas on the regular-expression matcher -/

namespace Regex

theorem nullable_of_dead (r : Regex) (h : dead r = true) : nullable r = false := by
  induction r with
  | seq r s ihr ihs =>
    simp only [dead, Bool.or_eq_true] at h
    rcases h with h | h
    · simp [nullable, ihr h]
    · simp [nullable, ihs h]
  | alt r s ihr ihs =>
    simp only [dead, Bool.and_eq_true] at h
    simp [nullable, ihr h.1, ihs h.2]
  | plus r ih => simpa [nullable] using ih (by simpa [dead] using h)
  | _ => simp_all [dead, nullable]

theorem dead_deriv (c : Char) (r : Regex) (h : dead r = true) : dead (deriv c r) = true := by
  induction r with
  | seq r s ihr ihs =>
    simp only [dead, Bool.or_eq_true] at h
    rcases h with h | h
    · simp [deriv, nullable_of_dead r h, dead, ihr h]
    · by_cases hn : nullable r = true
      · simp [deriv, hn, dead, h, ihs h]
      · simp [deriv, hn, dead, h]
  | alt r s ihr ihs =>
    simp only [dead, Bool.and_eq_true] at h
    simp [deriv, dead, ihr h.1, ihs h.2]
  | plus r ih => simp [deriv, dead, ih (by simpa [dead] using h)]
  | _ => simp_all [dead, deriv]

theorem dead_deriv_of_not_chars (c : Char) (r : Regex) (h : chars r c = false) :
    dead (deriv c r) = true := by
  induction r with
  | fail => simp [deriv, dead]
  | eps => simp [deriv, dead]
  | set ranges singles => simp [chars] at h; simp [deriv, h, dead]
  | seq r s ihr ihs =>
    simp only [chars, Bool.or_eq_false_iff] at h
    by_cases hn : nullable r = true
    · simp [deriv, hn, dead, ihr h.1, ihs h.2]
    · simp [deriv, hn, dead, ihr h.1]
  | alt r s ihr ihs =>
    simp only [chars, Bool.or_eq_false_iff] at h
    simp [deriv, dead, ihr h.1, ihs h.2]
  | opt r ih => simpa [deriv] using ih (by simpa [chars] using h)
  | star r ih => simp [deriv, dead, ih (by simpa [chars] using h)]
  | plus r ih => simp [deriv, dead, ih (by simpa [chars] using h)]
  | upto n r ih =>
    cases n with
    | zero => simp [deriv, dead]
    | succ n => simp [deriv, dead, ih (by simpa [chars] using h)]

theorem chars_of_chars_deriv (c x : Char) (r : Regex) (h : chars (deriv c r) x = true) :
    chars r x = true := by
  induction r with
  | fail => simp [deriv, chars] at h
  | eps => simp [deriv, chars] at h
  | set ranges singles =>
    by_cases hc : inSet ranges singles c = true <;> simp [deriv, hc, chars] at h
  | seq r s ihr ihs =>
    by_cases hn : nullable r = true
    · simp only [deriv, hn, if_true, chars, Bool.or_eq_true] at h
      simp only [chars, Bool.or_eq_true]
      rcases h with (h | h) | h
      · exact Or.inl (ihr h)
      · exact Or.inr h
      · exact Or.inr (ihs h)
    · simp only [deriv, hn, chars, Bool.or_eq_true] at h
      simp only [chars, Bool.or_eq_true]
      rcases h with h | h
      · exact Or.inl (ihr h)
      · exact Or.inr h
  | alt r s ihr ihs =>
    simp only [deriv, chars, Bool.or_eq_true] at h
    simp only [chars, Bool.or_eq_true]
    exact h.imp ihr ihs
  | opt r ih => exact ih (by simpa [deriv] using h)
  | star r ih =>
    simp only [deriv, chars, Bool.or_eq_true] at h
    simp only [chars]
    rcases h with h | h
    · exact ih h
    · exact h
  | plus r ih =>
    simp only [deriv, chars, Bool.or_eq_true] at h
    simp only [chars]
    rcases h with h | h
    · exact ih h
    · exact h
  | upto n r ih =>
    cases n with
    | zero => simp [deriv, chars] at h
    | succ n =>
      simp only [deriv, chars, Bool.or_eq_true] at h
      simp only [chars]
      rcases h with h | h
      · exact ih h
      · exact h

theorem matchAll_of_dead (s : List Char) : ∀ r : Regex, dead r = true → matchAll r s = false := by
  induction s with
  | nil => intro r h; simpa [matchAll] using nullable_of_dead r h
  | cons c cs ih => intro r h; simpa [matchAll] using ih _ (dead_deriv c r h)

/-- A matched string consists of characters admitted by the bracket classes. -/
theorem chars_of_matchAll (s : List Char) :
    ∀ r : Regex, matchAll r s = true → ∀ x ∈ s, chars r x = true := by
  induction s with
  | nil => intro r _ x hx; simp at hx
  | cons c cs ih =>
    intro r h x hx
    simp only [matchAll] at h
    rcases List.mem_cons.1 hx with rfl | hx
    · by_contra hc
      have hd := dead_deriv_of_not_chars x r (by simpa using hc)
      rw [matchAll_of_dead cs _ hd] at h
      exact Bool.false_ne_true h
    · exact chars_of_chars_deriv c x r (ih _ h x hx)

end Regex

/-! ## Lemmas on the codec -/

theorem replaceLoop_at (l : List Char) :
    replaceLoop ['@'] ['A', 'T'] 0 l = l.flatMap (fun c => if c = '@' then ['A', 'T'] else [c]) := by
  induction l with
  | nil => rfl
  | cons c cs ih =>
    by_cases hc : c = '@'
    · subst hc
      simp [replaceLoop, ih, List.isPrefixOf]
    · simp [replaceLoop, ih, List.isPrefixOf, hc, Ne.symm hc]

theorem replaceLoop_AT_flatMap (l : List Char) (hA : 'A' ∉ l) :
    replaceLoop ['A', 'T'] ['@'] 0 (l.flatMap (fun c => if c = '@' then ['A', 'T'] else [c])) = l := by
  induction l with
  | nil => rfl
  | cons c cs ih =>
    have hcs : 'A' ∉ cs := fun h => hA (List.mem_cons_of_mem _ h)
    have hcA : c ≠ 'A' := fun h => hA (h ▸ List.mem_cons_self _ _)
    have ih' := ih hcs
    rw [List.flatMap_cons]
    generalize cs.flatMap (fun c => if c = '@' then ['A', 'T'] else [c]) = g at ih' ⊢
    by_cases hc : c = '@'
    · subst hc
      simp [replaceLoop, List.isPrefixOf, ih']
    · simp [replaceLoop, List.isPrefixOf, hc, hcA, Ne.symm hcA, ih']

theorem at_not_mem_flatMap (l : List Char) :
    '@' ∉ l.flatMap (fun c => if c = '@' then ['A', 'T'] else [c]) := by
  intro h
  rcases List.mem_flatMap.1 h with ⟨c, _, hc⟩
  by_cases hc' : c = '@'
  · simp [hc'] at hc
  · simp [hc'] at hc
    exact hc' hc.symm

theorem ReplaceAll_at (s : String) :
    ReplaceAll s "@" "AT" = ⟨replaceLoop ['@'] ['A', 'T'] 0 s.data⟩ := by
  unfold ReplaceAll
  rw [if_neg (by decide), if_neg (by decide)]

theorem ReplaceAll_AT (s : String) :
    ReplaceAll s "AT" "@" = ⟨replaceLoop ['A', 'T'] ['@'] 0 s.data⟩ := by
  unfold ReplaceAll
  rw [if_neg (by decide), if_neg (by decide)]

theorem Encode_data (caseTable : Char → Char) (a : String) :
    (Encode caseTable a).data =
      (ToLower caseTable a).data.flatMap (fun c => if c = '@' then ['A', 'T'] else [c]) := by
  rw [Encode, ReplaceAll_at, replaceLoop_at]

theorem Decode_Encode_of_noA (caseTable : Char → Char) (a : String)
    (hA : 'A' ∉ (ToLower caseTable a).data) :
    Decode (Encode caseTable a) = ToLower caseTable a := by
  rw [Decode, ReplaceAll_AT, Encode_data, replaceLoop_AT_flatMap _ hA]

theorem lowerAscii_ne_A (c : Char) :
    (if 65 ≤ c.toNat ∧ c.toNat ≤ 90 then Char.ofNat (c.toNat + 32) else c) ≠ 'A' := by
  split
  · rename_i h
    intro he
    have h2 : (Char.ofNat (c.toNat + 32)).toNat = c.toNat + 32 := by
      obtain ⟨h1, h3⟩ := h
      generalize c.toNat = n at *
      interval_cases n <;> rfl
    rw [he] at h2
    have : ('A' : Char).toNat = 65 := rfl
    omega
  · rename_i h
    intro he
    subst he
    exact h (by decide)

theorem noA_of_ascii (caseTable : Char → Char) (a : String)
    (h : ∀ c ∈ a.data, c.toNat < 128) : 'A' ∉ (ToLower caseTable a).data := by
  have hall : a.data.all (fun c => decide (c.toNat < 128)) = true := by
    simpa [List.all_eq_true] using h
  unfold ToLower
  rw [if_pos hall]
  split
  · intro hm
    rcases List.mem_map.1 hm with ⟨c, _, hc⟩
    exact lowerAscii_ne_A c hc
  · rename_i hany
    intro hm
    apply hany
    simp only [List.any_eq_true, decide_eq_true_eq]
    exact ⟨'A', hm, by decide⟩

theorem noA_of_table (caseTable : Char → Char) (a : String)
    (h : ∀ r : Char, 127 < r.toNat → caseTable r ≠ 'A') : 'A' ∉ (ToLower caseTable a).data := by
  by_cases hall : a.data.all (fun c => decide (c.toNat < 128)) = true
  · exact noA_of_ascii caseTable a (by simpa [List.all_eq_true] using hall)
  · unfold ToLower
    rw [if_neg hall]
    intro hm
    rcases List.mem_map.1 hm with ⟨c, _, hc⟩
    unfold unicodeToLower at hc
    by_cases h1 : c.toNat ≤ 127
    · rw [if_pos h1] at hc
      exact lowerAscii_ne_A c hc
    · rw [if_neg h1] at hc
      exact h c (by omega) hc

theorem inSet_ascii (ranges : List (Char × Char)) (singles : List Char)
    (hr : ∀ p ∈ ranges, p.2.toNat < 128) (hs : ∀ x ∈ singles, x.toNat < 128) (c : Char)
    (h : Regex.inSet ranges singles c = true) : c.toNat < 128 := by
  simp only [Regex.inSet, Bool.or_eq_true, List.any_eq_true, decide_eq_true_eq] at h
  rcases h with ⟨p, hp, _, h2⟩ | h
  · exact lt_of_le_of_lt h2 (hr p hp)
  · exact hs c (by simpa using h)

/-- Every address accepted by `validateEmailFormat` is an ASCII string. -/
theorem ascii_of_valid (a : String) (hv : validateEmailFormat a = true) :
    ∀ c ∈ a.data, c.toNat < 128 := by
  intro c hc
  have h := Regex.chars_of_matchAll a.data emailRegexp hv c hc
  simp only [emailRegexp, label, alnum, alnumHyphen, Regex.chars, Bool.or_eq_true] at h
  have key : ∀ singles : List Char, (∀ x ∈ singles, x.toNat < 128) →
      Regex.inSet [('a', 'z'), ('A', 'Z'), ('0', '9')] singles c = true → c.toNat < 128 :=
    fun singles hs => inSet_ascii _ singles (by decide) hs c
  have key2 : ∀ singles : List Char, (∀ x ∈ singles, x.toNat < 128) →
      Regex.inSet [] singles c = true → c.toNat < 128 :=
    fun singles hs => inSet_ascii _ singles (by decide) hs c
  rcases h with h | h | (h | h | h) | h | h | h | h
  · exact key _ (by decide) h
  · exact key2 _ (by decide) h
  · exact key _ (by decide) h
  · exact key _ (by decide) h
  · exact key _ (by decide) h
  · exact key2 _ (by decide) h
  · exact key _ (by decide) h
  · exact key _ (by decide) h
  · exact key _ (by decide) h

theorem map_eq_self_imp {f : Char → Char} (l : List Char) (h : l.map f = l) :
    ∀ c ∈ l, f c = c := by
  induction l with
  | nil => intro c hc; simp at hc
  | cons x xs ih =>
    simp only [List.map_cons, List.cons.injEq] at h
    intro c hc
    rcases List.mem_cons.1 hc with rfl | hc
    · exact h.1
    · exact ih h.2 c hc

theorem lowerAscii_ne_self (c : Char) (h : 65 ≤ c.toNat ∧ c.toNat ≤ 90) :
    Char.ofNat (c.toNat + 32) ≠ c := by
  intro he
  have h2 : (Char.ofNat (c.toNat + 32)).toNat = c.toNat + 32 := by
    obtain ⟨h1, h3⟩ := h
    generalize c.toNat = n at *
    interval_cases n <;> rfl
  rw [he] at h2
  omega

/-- On an ASCII string `strings.ToLower` is the identity exactly when the string has
no upper-case letter. -/
theorem ToLower_eq_self_iff (caseTable : Char → Char) (a : String)
    (h : ∀ c ∈ a.data, c.toNat < 128) :
    ToLower caseTable a = a ↔ ∀ c ∈ a.data, ¬ (65 ≤ c.toNat ∧ c.toNat ≤ 90) := by
  have hall : a.data.all (fun c => decide (c.toNat < 128)) = true := by
    simpa [List.all_eq_true] using h
  unfold ToLower
  rw [if_pos hall]
  constructor
  · intro he c hc hu
    have hany : a.data.any (fun c => decide (65 ≤ c.toNat ∧ c.toNat ≤ 90)) = true := by
      simp only [List.any_eq_true, decide_eq_true_eq]
      exact ⟨c, hc, hu⟩
    rw [if_pos hany] at he
    have hd := congrArg String.data he
    have := map_eq_self_imp a.data hd c hc
    rw [if_pos hu] at this
    exact lowerAscii_ne_self c hu this
  · intro hno
    have hany : ¬ a.data.any (fun c => decide (65 ≤ c.toNat ∧ c.toNat ≤ 90)) = true := by
      simp only [List.any_eq_true, decide_eq_true_eq, not_exists, not_and]
      exact fun c hc h1 h2 => hno c hc ⟨h1, h2⟩
    rw [if_neg hany]

/-! ## Claims on the codec -/

/-- C1 (as stated, refuted): the valid address `A@b.c` does not contain `@AT`, yet
decoding its encoding yields `a@b.c`, not the address itself. -/
theorem C1_roundtrip_counterexample :
    validateEmailFormat "A@b.c" = true ∧ Contains "A@b.c" "@AT" = false ∧
      ∀ caseTable : Char → Char, Decode (Encode caseTable "A@b.c") ≠ "A@b.c" := by
  refine ⟨by decide, by decide, ?_⟩
  intro caseTable
  rw [show Decode (Encode caseTable "A@b.c") = "a@b.c" from rfl]
  decide

/-- C1 (amended): for every address accepted by `validateEmailFormat`, decoding the
encoding yields the lower-cased address, and it yields the address itself exactly
when the address has no upper-case letter. -/
theorem C1_roundtrip_valid (caseTable : Char → Char) (a : String)
    (hv : validateEmailFormat a = true) :
    Decode (Encode caseTable a) = ToLower caseTable a ∧
      (Decode (Encode caseTable a) = a ↔ ∀ c ∈ a.data, ¬ (65 ≤ c.toNat ∧ c.toNat ≤ 90)) := by
  have hascii := ascii_of_valid a hv
  have hde := Decode_Encode_of_noA caseTable a (noA_of_ascii caseTable a hascii)
  exact ⟨hde, by rw [hde]; exact ToLower_eq_self_iff caseTable a hascii⟩

/-- Witness of C1 (amended): the lower-case address `natasha@x.com`, whose local part
contains `at`. -/
theorem C1_roundtrip_valid_witness :
    validateEmailFormat "natasha@x.com" = true ∧
      (Decode (Encode id "natasha@x.com") = ToLower id "natasha@x.com" ∧
        (Decode (Encode id "natasha@x.com") = "natasha@x.com" ↔
          ∀ c ∈ "natasha@x.com".data, ¬ (65 ≤ c.toNat ∧ c.toNat ≤ 90))) :=
  ⟨by decide, C1_roundtrip_valid id "natasha@x.com" (by decide)⟩

/-- C2: for every string, whatever the case tables, the encoding
`ReplaceAll(ToLower(a), "@", "AT")` contains no `@` character. -/
theorem C2_Encode_no_at (caseTable : Char → Char) (a : String) :
    '@' ∉ (Encode caseTable a).data ∧ Contains (Encode caseTable a) "@" = false := by
  have h : '@' ∉ (Encode caseTable a).data := by
    rw [Encode_data]
    exact at_not_mem_flatMap _
  refine ⟨h, ?_⟩
  rw [Bool.eq_false_iff]
  intro hc
  apply h
  simp only [Contains, List.any_eq_true] at hc
  rcases hc with ⟨t, ht, hp⟩
  have hsuf : t <:+ (Encode caseTable a).data := (List.mem_tails _ _).1 ht
  cases t with
  | nil => simp [List.isPrefixOf] at hp
  | cons x xs =>
    have hx : x = '@' := by
      simp only [List.isPrefixOf, Bool.and_true, beq_iff_eq] at hp
      exact hp.symm
    subst hx
    exact hsuf.subset (List.mem_cons_self _ _)

/-- C3 (as stated, refuted): `A@b.c` and `a@b.c` are two distinct valid addresses
with the same encoding. -/
theorem C3_collision_counterexample :
    validateEmailFormat "A@b.c" = true ∧ validateEmailFormat "a@b.c" = true ∧
      ("A@b.c" : String) ≠ "a@b.c" ∧
      ∀ caseTable : Char → Char, Encode caseTable "A@b.c" = Encode caseTable "a@b.c" := by
  refine ⟨by decide, by decide, by decide, ?_⟩
  intro caseTable
  rfl

/-- C3 (amended): two addresses accepted by `validateEmailFormat` have the same
encoding exactly when they are equal after lower-casing; the encoding never
collides for addresses that differ by more than letter case. -/
theorem C3_Encode_injective_up_to_case (caseTable : Char → Char) (a b : String)
    (ha : validateEmailFormat a = true) (hb : validateEmailFormat b = true) :
    Encode caseTable a = Encode caseTable b ↔ ToLower caseTable a = ToLower caseTable b := by
  constructor
  · intro h
    have h1 := Decode_Encode_of_noA caseTable a (noA_of_ascii caseTable a (ascii_of_valid a ha))
    have h2 := Decode_Encode_of_noA caseTable b (noA_of_ascii caseTable b (ascii_of_valid b hb))
    rw [← h1, ← h2, h]
  · intro h
    rw [Encode, Encode, h]

/-- Witness of C3 (amended): the addresses `nat@asha.com` and `natasha@x.com`. -/
theorem C3_Encode_injective_up_to_case_witness :
    validateEmailFormat "nat@asha.com" = true ∧ validateEmailFormat "natasha@x.com" = true ∧
      (Encode id "nat@asha.com" = Encode id "natasha@x.com" ↔
        ToLower id "nat@asha.com" = ToLower id "natasha@x.com") :=
  ⟨by decide, by decide,
    C3_Encode_injective_up_to_case id "nat@asha.com" "natasha@x.com" (by decide) (by decide)⟩

/-- C9: for every string, provided the Unicode case tables never lower a non-ASCII
rune to the letter `A`, decoding the encoding yields the lower-cased string; so
the round trip is exact on every string that lower-casing leaves unchanged. -/
theorem C9_Decode_Encode_eq_ToLower (caseTable : Char → Char) (a : String)
    (htab : ∀ r : Char, 127 < r.toNat → caseTable r ≠ 'A') :
    Decode (Encode caseTable a) = ToLower caseTable a ∧
      (ToLower caseTable a = a → Decode (Encode caseTable a) = a) := by
  have h := Decode_Encode_of_noA caseTable a (noA_of_table caseTable a htab)
  exact ⟨h, fun he => by rw [h, he]⟩

/-- Witness of C9: a case table that lowers every non-ASCII rune (such as the Kelvin
sign) to `k`, and an address with a Kelvin sign and the letters `AT` after `@`. -/
theorem C9_Decode_Encode_eq_ToLower_witness :
    (∀ r : Char, 127 < r.toNat → (fun _ : Char => 'k') r ≠ 'A') ∧
      (Decode (Encode (fun _ => 'k') "Nat\u212A@ATx.com") =
          ToLower (fun _ => 'k') "Nat\u212A@ATx.com" ∧
        (ToLower (fun _ => 'k') "Nat\u212A@ATx.com" = "Nat\u212A@ATx.com" →
          Decode (Encode (fun _ => 'k') "Nat\u212A@ATx.com") = "Nat\u212A@ATx.com")) :=
  ⟨fun _ _ => (by decide : 'k' ≠ 'A'),
    C9_Decode_Encode_eq_ToLower (fun _ => 'k') "Nat\u212A@ATx.com"
      (fun _ _ => (by decide : 'k' ≠ 'A'))⟩

/-- The codec on an address with a non-ASCII rune: the encoding has no `@`, and the
round trip yields the lower-cased address. -/
theorem codec_on_kelvin_address :
    Encode (fun _ => 'k') "Nat\u212A@ATx.com" = "natkATatx.com" ∧
      Decode (Encode (fun _ => 'k') "Nat\u212A@ATx.com") = "natk@atx.com" := by
  decide

/-! ## Claims on the error normaliser -/

/-- C8 (as stated, refuted): for an unrecognised provider error the handler does not
return the code `unknown provider error`, and for a non-provider error it does
not return the code `unknown error`. -/
theorem C8_generic_code_counterexample :
    awsRekognitionErrorHandler (.aws ⟨"LimitExceededException", "limit", "limit exceeded"⟩) ≠
        NormalizeRef "unknown provider error" "unknown error"
          (.aws ⟨"LimitExceededException", "limit", "limit exceeded"⟩) ∧
      awsRekognitionErrorHandler (.other "timeout") ≠
        NormalizeRef "unknown provider error" "unknown error" (.other "timeout") := by
  decide

/-- C8 (amended): `awsRekognitionErrorHandler` equals the reference definition whose
generic codes are the constants of the source, `Unkonwn aws error code` and
`Unkonwn error`; the nine recognised kinds are pairwise distinct and neither
generic code is one of them. -/
theorem C8_handler_eq_reference (err : GoError) :
    awsRekognitionErrorHandler err = NormalizeRef "Unkonwn aws error code" "Unkonwn error" err ∧
      recognizedKinds.Nodup ∧ recognizedKinds.length = 9 ∧
      "Unkonwn aws error code" ∉ recognizedKinds ∧ "Unkonwn error" ∉ recognizedKinds := by
  refine ⟨?_, by decide, by decide, by decide, by decide⟩
  cases err with
  | other text => rfl
  | aws aerr =>
    simp only [awsRekognitionErrorHandler, NormalizeRef, recognizedKinds, List.mem_cons,
      List.mem_singleton, List.not_mem_nil, or_false]
    split_ifs <;> simp_all

/-! ## Claims on the handlers -/

/-- A provider search recorded in the trace of `SearchEmployeeByFace` is the one the
handler issued: the session was created and the provider gave that reply. -/
theorem search_event_inv (w : World) (input : SearchFacesByImageInput)
    (reply : Except GoError SearchFacesByImageOutput) :
    Event.SearchFacesByImage input reply ∈ (SearchEmployeeByFace w).trace →
    w.NewSession = none ∧
      input = searchFacesByImageInput ∧
      w.SearchFacesByImage input = reply := by
  unfold SearchEmployeeByFace
  simp only [CallEmployeeDBServiceToSearchFace, SignInEmployee, CallEmployeeDBServiceToSignInEmp]
  repeat' split
  all_goals
    intro h
    simp at h
  all_goals
    obtain ⟨h1, h2⟩ := h
    subst h1
    exact ⟨by assumption, rfl, h2.symm⟩

/-- C6: in every `SearchEmployeeByFace` call whose provider search succeeds with an
empty list of face matches, the call fails with `NotFound` and the trace holds
no record-store call: the provider search is the only outbound call. -/
theorem C6_no_candidate_NotFound (w : World) (input : SearchFacesByImageInput)
    (result : SearchFacesByImageOutput)
    (hsearch : Event.SearchFacesByImage input (.ok result) ∈ (SearchEmployeeByFace w).trace)
    (hempty : result.FaceMatches = []) :
    (SearchEmployeeByFace w).out =
        .done (.error ⟨.NotFound, "Recognition-Search: Employee doesn't exist"⟩) ∧
      (SearchEmployeeByFace w).trace = [.SearchFacesByImage input (.ok result)] ∧
      ∀ e ∈ (SearchEmployeeByFace w).trace, e.isRecordStore = false := by
  obtain ⟨hs, hin, hrep⟩ := search_event_inv w input _ hsearch
  subst hin
  have htrace : (SearchEmployeeByFace w).trace =
      [.SearchFacesByImage searchFacesByImageInput (.ok result)] := by
    simp [SearchEmployeeByFace, hs, hrep, hempty]
  refine ⟨by simp [SearchEmployeeByFace, hs, hrep, hempty], htrace, ?_⟩
  intro e he
  rw [htrace] at he
  simp only [List.mem_singleton] at he
  subst he
  rfl

/-- Witness of C6: the provider of `emptyWorld` finds no candidate. -/
theorem C6_no_candidate_NotFound_witness :
    Event.SearchFacesByImage searchFacesByImageInput (.ok ⟨[]⟩) ∈
        (SearchEmployeeByFace emptyWorld).trace ∧
      (⟨[]⟩ : SearchFacesByImageOutput).FaceMatches = [] ∧
      ((SearchEmployeeByFace emptyWorld).out =
          .done (.error ⟨.NotFound, "Recognition-Search: Employee doesn't exist"⟩) ∧
        (SearchEmployeeByFace emptyWorld).trace =
          [.SearchFacesByImage searchFacesByImageInput (.ok ⟨[]⟩)] ∧
        ∀ e ∈ (SearchEmployeeByFace emptyWorld).trace, e.isRecordStore = false) :=
  ⟨List.Mem.head _, rfl, C6_no_candidate_NotFound emptyWorld _ ⟨[]⟩ (List.Mem.head _) rfl⟩

/-- A record-store lookup recorded in the trace of `CreateEmployee` is the duplicate
check: the session was created, the request passed validation, and the store
gave that reply for the address of the request. -/
theorem create_lookup_event_inv (caseTable : Char → Char) (w : World)
    (req : CreateEmployeeRequest) (address empEmail : String)
    (reply : DBReply (Option Employee)) :
    Event.DBSearchFace address empEmail reply ∈ (CreateEmployee caseTable w req).trace →
    w.NewSession = none ∧ address = employeedbAddress ∧ empEmail = GetEmpEmail req.Employee ∧
      w.SearchEmployeeByFace employeedbAddress (GetEmpEmail req.Employee) = reply := by
  unfold CreateEmployee
  simp only [CallEmployeeDBServiceToSearchFace, CallEmployeeDBServiceToCreateEmp]
  repeat' split
  all_goals
    intro h
    simp at h
  all_goals
    obtain ⟨h1, h2, h3⟩ := h
    subst h1 h2
    exact ⟨by assumption, rfl, rfl, h3.symm⟩

/-- C5: for every `CreateEmployee` request that passes address validation and whose
record-store lookup returns a record with a non-empty address, the call fails
with `AlreadyExists`, and its trace holds the lookup only: no provider call and
no record-store create call. -/
theorem C5_duplicate_guard (caseTable : Char → Char) (w : World) (req : CreateEmployeeRequest)
    (emp : Employee) (existing : Option Employee)
    (hreq : req.Employee = some emp) (hne : emp.EmpEmail ≠ "")
    (hvalid : validateEmailFormat emp.EmpEmail = true)
    (hlookup : Event.DBSearchFace employeedbAddress emp.EmpEmail (.replied existing) ∈
      (CreateEmployee caseTable w req).trace)
    (hdup : GetEmpEmail existing ≠ "") :
    (CreateEmployee caseTable w req).out =
        .done (.error ⟨.AlreadyExists, "Recognition-Create: Employee already exists"⟩) ∧
      (∀ e ∈ (CreateEmployee caseTable w req).trace, e.isProvider = false) ∧
      (∀ e ∈ (CreateEmployee caseTable w req).trace,
        ∀ address tempEmp reply, e ≠ .DBCreateEmp address tempEmp reply) ∧
      (CreateEmployee caseTable w req).trace =
        [.DBSearchFace employeedbAddress emp.EmpEmail (.replied existing)] := by
  obtain ⟨hs, -, -, hrep⟩ := create_lookup_event_inv caseTable w req _ _ _ hlookup
  have hmail : GetEmpEmail (some emp) = emp.EmpEmail := rfl
  rw [hreq, hmail] at hrep
  have htrace : (CreateEmployee caseTable w req).trace =
      [.DBSearchFace employeedbAddress emp.EmpEmail (.replied existing)] := by
    simp [CreateEmployee, CallEmployeeDBServiceToSearchFace, hs, hreq, hmail, hne, hvalid,
      hrep, hdup]
  refine ⟨?_, ?_, ?_, htrace⟩
  · simp [CreateEmployee, CallEmployeeDBServiceToSearchFace, hs, hreq, hmail, hne, hvalid,
      hrep, hdup]
  · intro e he
    rw [htrace] at he
    simp only [List.mem_singleton] at he
    subst he
    rfl
  · intro e he address tempEmp reply
    rw [htrace] at he
    simp only [List.mem_singleton] at he
    subst he
    simp

/-- Witness of C5: Jane Doe enrolls while the record store already holds her. -/
theorem C5_duplicate_guard_witness :
    janeRequest.Employee = some janeApplicant ∧ janeApplicant.EmpEmail ≠ "" ∧
      validateEmailFormat janeApplicant.EmpEmail = true ∧
      Event.DBSearchFace employeedbAddress janeApplicant.EmpEmail (.replied (some jane)) ∈
        (CreateEmployee id duplicateWorld janeRequest).trace ∧
      GetEmpEmail (some jane) ≠ "" ∧
      ((CreateEmployee id duplicateWorld janeRequest).out =
          .done (.error ⟨.AlreadyExists, "Recognition-Create: Employee already exists"⟩) ∧
        (∀ e ∈ (CreateEmployee id duplicateWorld janeRequest).trace, e.isProvider = false) ∧
        (∀ e ∈ (CreateEmployee id duplicateWorld janeRequest).trace,
          ∀ address tempEmp reply, e ≠ .DBCreateEmp address tempEmp reply) ∧
        (CreateEmployee id duplicateWorld janeRequest).trace =
          [.DBSearchFace employeedbAddress janeApplicant.EmpEmail (.replied (some jane))]) :=
  ⟨rfl, by decide, by decide, List.Mem.head _, by decide,
    C5_duplicate_guard id duplicateWorld janeRequest janeApplicant (some jane) rfl (by decide)
      (by decide) (List.Mem.head _) (by decide)⟩

/-- A provider indexing call recorded in the trace of `CreateEmployee` is the one the
handler issued after the duplicate check found nobody. -/
theorem create_index_event_inv (caseTable : Char → Char) (w : World)
    (req : CreateEmployeeRequest) (input : IndexFacesInput)
    (reply : Except GoError IndexFacesOutput)
    (h : Event.IndexFaces input reply ∈ (CreateEmployee caseTable w req).trace) :
    w.NewSession = none ∧
      (∃ existing, w.SearchEmployeeByFace employeedbAddress (GetEmpEmail req.Employee) =
        .replied existing ∧ GetEmpEmail existing = "") ∧
      input = indexFacesInput (Encode caseTable (GetEmpEmail req.Employee)) ∧
      w.IndexFaces (indexFacesInput (Encode caseTable (GetEmpEmail req.Employee))) = reply := by
  cases hs : w.NewSession with
  | some err => simp [CreateEmployee, hs] at h
  | none =>
    by_cases hreq : req.Employee = none ∨ GetEmpEmail req.Employee = ""
    · simp [CreateEmployee, hs, hreq] at h
    · by_cases hv : validateEmailFormat (GetEmpEmail req.Employee) = false
      · simp [CreateEmployee, hs, hreq, hv] at h
      · cases hl : w.SearchEmployeeByFace employeedbAddress (GetEmpEmail req.Employee) with
        | dialFailed e =>
          simp [CreateEmployee, CallEmployeeDBServiceToSearchFace, hs, hreq, hv, hl] at h
        | rpcFailed e =>
          simp [CreateEmployee, CallEmployeeDBServiceToSearchFace, hs, hreq, hv, hl] at h
        | replied existing =>
          by_cases hd : GetEmpEmail existing = ""
          · refine ⟨rfl, ⟨existing, rfl, hd⟩, ?_⟩
            revert h
            simp only [CreateEmployee, CallEmployeeDBServiceToSearchFace,
              CallEmployeeDBServiceToCreateEmp, hs, hreq, hv, hl, hd]
            repeat' split
            all_goals
              intro h
              simp at h
            all_goals
              obtain ⟨h1, h2⟩ := h
              exact ⟨h1, h2.symm⟩
          · simp [CreateEmployee, CallEmployeeDBServiceToSearchFace, hs, hreq, hv, hl, hd] at h

/-- C4 (as stated, refuted): Jane Doe's request passes validation, the lookup
replies with no record, `IndexFaces` succeeds with top face-record confidence 85,
which is at least 70, but dialling the record store for the create call fails:
`createGRPCConn` ends the process with `log.Fatalf` and the call returns no
response. -/
theorem C4_dial_failure_counterexample :
    janeRequest.Employee = some janeApplicant ∧ janeApplicant.EmpEmail ≠ "" ∧
      validateEmailFormat janeApplicant.EmpEmail = true ∧
      Event.DBSearchFace employeedbAddress janeApplicant.EmpEmail (.replied none) ∈
        (CreateEmployee id (enrollWorld 85 (.dialFailed "refused")) janeRequest).trace ∧
      GetEmpEmail none = "" ∧
      Event.IndexFaces (indexFacesInput "jane.doeATexample.com")
          (.ok ⟨[some ⟨some ⟨some 85, none⟩⟩]⟩) ∈
        (CreateEmployee id (enrollWorld 85 (.dialFailed "refused")) janeRequest).trace ∧
      ((0 : ℚ) ≤ 85 ∧ (85 : ℚ) ≤ 100 ∧ (70 : ℚ) ≤ 85) ∧
      (CreateEmployee id (enrollWorld 85 (.dialFailed "refused")) janeRequest).out = .fatal ∧
      (CreateEmployee id (enrollWorld 85 (.dialFailed "refused")) janeRequest).out ≠
        .done (.ok { EmpFirst := janeApplicant.EmpFirst, EmpLast := janeApplicant.EmpLast }) := by
  have hout : (CreateEmployee id (enrollWorld 85 (.dialFailed "refused")) janeRequest).out =
      .fatal := rfl
  refine ⟨rfl, by decide, by decide, List.Mem.head _, rfl, List.Mem.tail _ (List.Mem.head _),
    by norm_num, hout, ?_⟩
  rw [hout]
  exact fun h => Run.noConfusion h

/-- C4 (amended): for every `CreateEmployee` request that passes address validation,
whose record-store lookup succeeds with an empty address and whose `IndexFaces`
call succeeds with a first face record of confidence `c`: the call fails with
`InvalidArgument` when `c < 70`; when `70 ≤ c` (also for `c = 70`) and the
record-store create call returns, be it an error or a reply (no create call of
the run fails to dial), the call returns the first and last name of the
request. -/
theorem C4_confidence_gate (caseTable : Char → Char) (w : World) (req : CreateEmployeeRequest)
    (emp : Employee) (existing : Option Employee) (input : IndexFacesInput)
    (result : IndexFacesOutput) (c : ℚ) (externalImageId : Option String)
    (rest : List (Option FaceRecord))
    (hreq : req.Employee = some emp) (hne : emp.EmpEmail ≠ "")
    (hvalid : validateEmailFormat emp.EmpEmail = true)
    (hlookup : Event.DBSearchFace employeedbAddress emp.EmpEmail (.replied existing) ∈
      (CreateEmployee caseTable w req).trace)
    (hnobody : GetEmpEmail existing = "")
    (hindex : Event.IndexFaces input (.ok result) ∈ (CreateEmployee caseTable w req).trace)
    (hrecords : result.FaceRecords =
      some { Face := some { Confidence := some c, ExternalImageId := externalImageId } } ::
        rest) :
    (c < 70 → (CreateEmployee caseTable w req).out =
        .done (.error ⟨.InvalidArgument, "Recognition-Create: No face detected"⟩)) ∧
      (70 ≤ c →
        (∀ address tempEmp err,
          Event.DBCreateEmp address tempEmp (.dialFailed err) ∉
            (CreateEmployee caseTable w req).trace) →
        (CreateEmployee caseTable w req).out =
          .done (.ok { EmpFirst := emp.EmpFirst, EmpLast := emp.EmpLast })) := by
  obtain ⟨hs, -, -, hl⟩ := create_lookup_event_inv caseTable w req _ _ _ hlookup
  obtain ⟨-, -, -, hidx⟩ := create_index_event_inv caseTable w req _ _ hindex
  have hd := hnobody
  have htop : topFaceConfidence result = some c := by
    simp [topFaceConfidence, hrecords]
  have hmail : GetEmpEmail (some emp) = emp.EmpEmail := rfl
  rw [hreq, hmail] at hl hidx
  constructor
  · intro hc
    simp [CreateEmployee, CallEmployeeDBServiceToSearchFace, hs, hreq, hmail, hne, hvalid, hl,
      hd, hidx, htop, enrollConfidenceThreshold, hc]
  · intro hc hcreate
    have hc' : ¬ c < 70 := not_lt.mpr hc
    cases hcr : w.CreateEmployee employeedbAddress
        { empID := w.NewUUID, empCardID := emp.EmpCardID, empFirst := emp.EmpFirst,
          empLast := emp.EmpLast, empEmail := emp.EmpEmail,
          empExternalImageID := Encode caseTable emp.EmpEmail } with
    | dialFailed err =>
      exfalso
      apply hcreate employeedbAddress
        { empID := w.NewUUID, empCardID := emp.EmpCardID, empFirst := emp.EmpFirst,
          empLast := emp.EmpLast, empEmail := emp.EmpEmail,
          empExternalImageID := Encode caseTable emp.EmpEmail } err
      simp [CreateEmployee, CallEmployeeDBServiceToSearchFace, CallEmployeeDBServiceToCreateEmp,
        hs, hreq, hmail, hne, hvalid, hl, hd, hidx, htop, enrollConfidenceThreshold, hc',
        GetEmpCardID, GetEmpFirst, GetEmpLast, hcr]
    | rpcFailed err =>
      simp [CreateEmployee, CallEmployeeDBServiceToSearchFace, CallEmployeeDBServiceToCreateEmp,
        hs, hreq, hmail, hne, hvalid, hl, hd, hidx, htop, enrollConfidenceThreshold, hc',
        GetEmpCardID, GetEmpFirst, GetEmpLast, hcr]
    | replied msg =>
      simp [CreateEmployee, CallEmployeeDBServiceToSearchFace, CallEmployeeDBServiceToCreateEmp,
        hs, hreq, hmail, hne, hvalid, hl, hd, hidx, htop, enrollConfidenceThreshold, hc',
        GetEmpCardID, GetEmpFirst, GetEmpLast, hcr]

/-- In the enrollment of Jane Doe at confidence 70 with a create call whose RPC
fails, no create call fails to dial. -/
theorem enroll70_create_returns (address : String) (tempEmp : employee) (err : String) :
    Event.DBCreateEmp address tempEmp (.dialFailed err) ∉
      (CreateEmployee id (enrollWorld 70 (.rpcFailed "store down")) janeRequest).trace := by
  have htrace : (CreateEmployee id (enrollWorld 70 (.rpcFailed "store down")) janeRequest).trace =
      [.DBSearchFace employeedbAddress "Jane.Doe@Example.com" (.replied none),
       .IndexFaces (indexFacesInput "jane.doeATexample.com")
         (.ok ⟨[some ⟨some ⟨some 70, none⟩⟩]⟩),
       .DBCreateEmp employeedbAddress
         { empID := "0b7e0e4c-5e0f-4f4e-9d56-7f1f3c2a9b10", empCardID := "card-7",
           empFirst := "Jane", empLast := "Doe", empEmail := "Jane.Doe@Example.com",
           empExternalImageID := "jane.doeATexample.com" }
         (.rpcFailed "store down")] := rfl
  rw [htrace]
  simp

/-- Witness of C4 (amended): Jane Doe enrolls. With a first face record of confidence
exactly 70 and a create call whose RPC fails, every hypothesis of the success
half holds and the call returns her names; with confidence 69 the call fails
with `InvalidArgument`. -/
theorem C4_confidence_gate_witness :
    (janeRequest.Employee = some janeApplicant ∧ janeApplicant.EmpEmail ≠ "" ∧
      validateEmailFormat janeApplicant.EmpEmail = true ∧
      Event.DBSearchFace employeedbAddress janeApplicant.EmpEmail (.replied none) ∈
        (CreateEmployee id (enrollWorld 70 (.rpcFailed "store down")) janeRequest).trace ∧
      GetEmpEmail none = "" ∧
      Event.IndexFaces (indexFacesInput "jane.doeATexample.com")
          (.ok ⟨[some ⟨some ⟨some 70, none⟩⟩]⟩) ∈
        (CreateEmployee id (enrollWorld 70 (.rpcFailed "store down")) janeRequest).trace ∧
      (⟨[some ⟨some ⟨some 70, none⟩⟩]⟩ : IndexFacesOutput).FaceRecords =
        some { Face := some { Confidence := some 70, ExternalImageId := none } } :: [] ∧
      (70 : ℚ) ≤ 70 ∧
      (∀ address tempEmp err,
        Event.DBCreateEmp address tempEmp (.dialFailed err) ∉
          (CreateEmployee id (enrollWorld 70 (.rpcFailed "store down")) janeRequest).trace) ∧
      (CreateEmployee id (enrollWorld 70 (.rpcFailed "store down")) janeRequest).out =
        .done (.ok { EmpFirst := janeApplicant.EmpFirst, EmpLast := janeApplicant.EmpLast })) ∧
    (Event.DBSearchFace employeedbAddress janeApplicant.EmpEmail (.replied none) ∈
        (CreateEmployee id (enrollWorld 69 (.replied "created")) janeRequest).trace ∧
      Event.IndexFaces (indexFacesInput "jane.doeATexample.com")
          (.ok ⟨[some ⟨some ⟨some 69, none⟩⟩]⟩) ∈
        (CreateEmployee id (enrollWorld 69 (.replied "created")) janeRequest).trace ∧
      (69 : ℚ) < 70 ∧
      (CreateEmployee id (enrollWorld 69 (.replied "created")) janeRequest).out =
        .done (.error ⟨.InvalidArgument, "Recognition-Create: No face detected"⟩)) :=
  ⟨⟨rfl, by decide, by decide, List.Mem.head _, rfl, List.Mem.tail _ (List.Mem.head _), rfl,
      le_refl _, enroll70_create_returns,
      (C4_confidence_gate id (enrollWorld 70 (.rpcFailed "store down")) janeRequest
        janeApplicant none (indexFacesInput "jane.doeATexample.com")
        ⟨[some ⟨some ⟨some 70, none⟩⟩]⟩ 70 none [] rfl (by decide) (by decide)
        (List.Mem.head _) rfl (List.Mem.tail _ (List.Mem.head _)) rfl).2 (le_refl _)
        enroll70_create_returns⟩,
    ⟨List.Mem.head _, List.Mem.tail _ (List.Mem.head _), by norm_num,
      (C4_confidence_gate id (enrollWorld 69 (.replied "created")) janeRequest
        janeApplicant none (indexFacesInput "jane.doeATexample.com")
        ⟨[some ⟨some ⟨some 69, none⟩⟩]⟩ 69 none [] rfl (by decide) (by decide)
        (List.Mem.head _) rfl (List.Mem.tail _ (List.Mem.head _)) rfl).1 (by norm_num)⟩⟩

/-- The enrollment of Jane Doe at confidence 70 with a failing create call returns
her names; at confidence 69 it fails with `InvalidArgument`. -/
theorem CreateEmployee_at_threshold :
    (CreateEmployee id (enrollWorld 70 (.rpcFailed "store down")) janeRequest).out =
        .done (.ok ⟨"Jane", "Doe"⟩) ∧
      (CreateEmployee id (enrollWorld 69 (.replied "created")) janeRequest).out =
        .done (.error ⟨.InvalidArgument, "Recognition-Create: No face detected"⟩) :=
  ⟨rfl, rfl⟩

/-- C10 (the code faults): when the provider indexes no face and answers with an
empty `FaceRecords` list, the access `FaceRecords[0]` is out of range and
`CreateEmployee` ends in a run-time panic after the lookup and the indexing
call, returning neither a response nor a status error. -/
theorem C10_empty_FaceRecords_panics :
    emptyWorld.IndexFaces (indexFacesInput "jane.doeATexample.com") = .ok ⟨[]⟩ ∧
      (CreateEmployee id emptyWorld janeRequest).out = .panic ∧
      (CreateEmployee id emptyWorld janeRequest).trace =
        [.DBSearchFace employeedbAddress "Jane.Doe@Example.com" (.replied none),
         .IndexFaces (indexFacesInput "jane.doeATexample.com") (.ok ⟨[]⟩)] :=
  ⟨rfl, rfl, rfl⟩

/-- Whenever the indexing call of `CreateEmployee` succeeds with an empty
`FaceRecords` list, the handler ends in a run-time panic. -/
theorem CreateEmployee_panics_of_empty (caseTable : Char → Char) (w : World)
    (req : CreateEmployeeRequest) (input : IndexFacesInput) (result : IndexFacesOutput)
    (hindex : Event.IndexFaces input (.ok result) ∈ (CreateEmployee caseTable w req).trace)
    (hempty : result.FaceRecords = []) :
    (CreateEmployee caseTable w req).out = .panic := by
  obtain ⟨hs, ⟨existing, hl, hd⟩, -, hidx⟩ := create_index_event_inv caseTable w req _ _ hindex
  have htop : topFaceConfidence result = none := by simp [topFaceConfidence, hempty]
  by_cases hreq : req.Employee = none ∨ GetEmpEmail req.Employee = ""
  · exfalso
    simp [CreateEmployee, hs, hreq] at hindex
  · by_cases hv : validateEmailFormat (GetEmpEmail req.Employee) = false
    · exfalso
      simp [CreateEmployee, hs, hreq, hv] at hindex
    · simp [CreateEmployee, CallEmployeeDBServiceToSearchFace, hs, hreq, hv, hl, hd, hidx, htop]

/-- A record-store lookup recorded in the trace of `SearchEmployeeByFace` follows a
successful provider search with a first candidate, whose decoded external
identifier is the address looked up. -/
theorem search_lookup_event_inv (w : World) (address empEmail : String)
    (reply : DBReply (Option Employee))
    (h : Event.DBSearchFace address empEmail reply ∈ (SearchEmployeeByFace w).trace) :
    w.NewSession = none ∧
      ∃ result empExternalImageID,
        w.SearchFacesByImage searchFacesByImageInput = .ok result ∧
        ¬ result.FaceMatches.length = 0 ∧
        topExternalImageId result = some empExternalImageID ∧
        w.SearchEmployeeByFace employeedbAddress (Decode empExternalImageID) = reply := by
  cases hs : w.NewSession with
  | some err => simp [SearchEmployeeByFace, hs] at h
  | none =>
    refine ⟨rfl, ?_⟩
    cases hr : w.SearchFacesByImage searchFacesByImageInput with
    | error err => simp [SearchEmployeeByFace, hs, hr] at h
    | ok result =>
      by_cases hlen : result.FaceMatches.length = 0
      · simp [SearchEmployeeByFace, hs, hr, hlen] at h
      · cases htop : topExternalImageId result with
        | none => simp [SearchEmployeeByFace, hs, hr, hlen, htop] at h
        | some empExternalImageID =>
          refine ⟨result, empExternalImageID, rfl, hlen, htop, ?_⟩
          revert h
          simp only [SearchEmployeeByFace, CallEmployeeDBServiceToSearchFace, SignInEmployee,
            CallEmployeeDBServiceToSignInEmp, hs, hr, hlen, htop]
          repeat' split
          all_goals
            intro h
            simp at h
          all_goals
            exact h.2.2.symm

/-- C7 (as stated, refuted): the provider recognises Jane Doe, the record-store
lookup succeeds, the sign-in side effect returns an `Internal` error because the
store fails, and yet `SearchEmployeeByFace` returns a successful response. -/
theorem C7_signin_error_counterexample :
    (SignInEmployee (janeWorld (.rpcFailed "store down")) (GetEmpEmail (some jane))
        (GetEmpCardID (some jane))).out =
        .done (some ⟨.Internal, "Recognition-SignIn: Error when connecting employee db: " ++
          "rpc error: code = Internal desc = Error when sign in employee: store down"⟩) ∧
      (SearchEmployeeByFace (janeWorld (.rpcFailed "store down"))).out =
        .done (.ok ⟨"7", "card-7", "Jane", "Doe", "jane.doe@example.com"⟩) :=
  ⟨by decide, rfl⟩

/-- C7 (amended): in every `SearchEmployeeByFace` call whose provider search returns
at least one candidate and whose record-store lookup succeeds, when the sign-in
side effect returns an error the handler discards it and returns the successful
response built from the record looked up. -/
theorem C7_signin_error_discarded (w : World) (input : SearchFacesByImageInput)
    (result : SearchFacesByImageOutput) (address empEmail : String) (emp : Option Employee)
    (signInErr : Status)
    (hsearch : Event.SearchFacesByImage input (.ok result) ∈ (SearchEmployeeByFace w).trace)
    (hcandidate : result.FaceMatches ≠ [])
    (hlookup : Event.DBSearchFace address empEmail (.replied emp) ∈
      (SearchEmployeeByFace w).trace)
    (hsignIn : (SignInEmployee w (GetEmpEmail emp) (GetEmpCardID emp)).out =
      .done (some signInErr)) :
    (SearchEmployeeByFace w).out =
      .done (.ok { EmpID := GetEmpID emp, EmpCardID := GetEmpCardID emp,
                   EmpFirst := GetEmpFirst emp, EmpLast := GetEmpLast emp,
                   EmpEmail := GetEmpEmail emp }) := by
  obtain ⟨hs, hin, hr⟩ := search_event_inv w input _ hsearch
  subst hin
  obtain ⟨-, result', ext, hr', -, htop, hl⟩ := search_lookup_event_inv w _ _ _ hlookup
  rw [hr] at hr'
  cases hr'
  have hlen : ¬ result.FaceMatches.length = 0 := by
    simpa [List.length_eq_zero] using hcandidate
  simp [SearchEmployeeByFace, CallEmployeeDBServiceToSearchFace, hs, hr, hlen, htop, hl,
    hsignIn]

/-- Witness of C7 (amended): Jane Doe is recognised and looked up, the sign-in call
of the record store fails. -/
theorem C7_signin_error_discarded_witness :
    Event.SearchFacesByImage searchFacesByImageInput
        (.ok ⟨[some ⟨some ⟨some 99, some "jane.doeATexample.com"⟩⟩]⟩) ∈
        (SearchEmployeeByFace (janeWorld (.rpcFailed "store down"))).trace ∧
      (⟨[some ⟨some ⟨some 99, some "jane.doeATexample.com"⟩⟩]⟩ :
        SearchFacesByImageOutput).FaceMatches ≠ [] ∧
      Event.DBSearchFace employeedbAddress "jane.doe@example.com" (.replied (some jane)) ∈
        (SearchEmployeeByFace (janeWorld (.rpcFailed "store down"))).trace ∧
      (SignInEmployee (janeWorld (.rpcFailed "store down")) (GetEmpEmail (some jane))
          (GetEmpCardID (some jane))).out =
        .done (some ⟨.Internal, "Recognition-SignIn: Error when connecting employee db: " ++
          "rpc error: code = Internal desc = Error when sign in employee: store down"⟩) ∧
      (SearchEmployeeByFace (janeWorld (.rpcFailed "store down"))).out =
        .done (.ok { EmpID := GetEmpID (some jane), EmpCardID := GetEmpCardID (some jane),
                     EmpFirst := GetEmpFirst (some jane), EmpLast := GetEmpLast (some jane),
                     EmpEmail := GetEmpEmail (some jane) }) :=
  ⟨List.Mem.head _, by simp, List.Mem.tail _ (List.Mem.head _), by decide,
    C7_signin_error_discarded (janeWorld (.rpcFailed "store down")) searchFacesByImageInput
      ⟨[some ⟨some ⟨some 99, some "jane.doeATexample.com"⟩⟩]⟩ employeedbAddress
      "jane.doe@example.com" (some jane)
      ⟨.Internal, "Recognition-SignIn: Error when connecting employee db: " ++
        "rpc error: code = Internal desc = Error when sign in employee: store down"⟩
      (List.Mem.head _) (by simp) (List.Mem.tail _ (List.Mem.head _)) (by decide)⟩

end Recognition
